import Mathlib

set_option maxHeartbeats 1000000

/-
Shallow embedding of PyHT6022/LibUsbScope.py (class Oscilloscope).

The Oscilloscope methods read and write three attributes (self.context,
self.device, self.device_handle); they are modelled by a record of three
booleans (present / not present).  The external USB world (what the usb1
library returns for enumeration, kernel-driver queries, control writes and
bulk reads) is a parameter `Env`.  Each method becomes a function from the
scope state and the environment to a result record holding the new state,
the ordered list of transport calls issued, and either the returned value
or the Python exception raised.  Python ints are ℤ or ℕ, Python floats
are ℚ (exact field arithmetic in place of IEEE doubles), byte strings are
lists over Fin 256.
-/

namespace Scope

/-- Kinds of Python exception the modelled methods can raise:
a failed `assert`, or `ValueError` from `chr` on an out-of-range byte. -/
inductive PyErr where
  | assertionError
  | valueError
deriving DecidableEq

/-- Outcome of a Python call: a normal return value or a raised exception. -/
inductive PyOut (α : Type) where
  | ok (val : α)
  | exn (e : PyErr)
deriving DecidableEq

/-- Transport-level calls the driver issues through the usb1 binding,
recorded in issue order. -/
inductive Event where
  | enumerate
  | openDev
  | detachKernel (iface : ℕ)
  | claimInterface (iface : ℕ)
  | releaseInterface (iface : ℕ)
  | closeDev
  | controlWrite (bmRequestType request value idx : ℕ) (data : List ℕ) (timeout : ℕ)
  | controlRead (bmRequestType request value idx len timeout : ℕ)
  | bulkRead (endpoint len timeout : ℕ)
  | sleepMs (ms : ℕ)
deriving DecidableEq

/-- The mutable attributes of the Oscilloscope object: whether a USB
context exists (`self.context`), whether a candidate device is known
(`self.device`), and whether a device handle is open
(`self.device_handle`). -/
structure ScopeState where
  context : Bool
  device : Bool
  handle : Bool
deriving DecidableEq

/-- Behaviour of the external USB world: whether enumeration finds a
6022BE, whether a kernel driver is active on interface 0, the byte count
each control write reports as transferred (as a function of request, value
and payload), and the buffer a bulk read returns (as a function of the
requested length). -/
structure Env where
  findsDevice : Bool
  kernelDriverActive : Bool
  controlWriteLen : ℕ → ℕ → List ℕ → ℕ
  bulkData : ℕ → List (Fin 256)

/-- Result of running a method: the scope state afterwards, the transport
events issued, and the returned value or raised exception. -/
structure Res (α : Type) where
  state : ScopeState
  events : List Event
  out : PyOut α
deriving DecidableEq

/-- Oscilloscope.setup: create a USB context and look the scope up by
vendor/product id (primary vendor id, falling back to the alternate one,
merged here into one enumeration outcome); store whether a candidate was
found and return that. -/
def setup (s : ScopeState) (env : Env) : Res Bool :=
  ⟨{ s with context := true, device := env.findsDevice }, [Event.enumerate],
    PyOut.ok env.findsDevice⟩

/-- Oscilloscope.open_handle: `if self.device_handle: return True`, then
`if not self.device or not self.setup(): return False` (note the
short-circuit: with no known candidate it returns False at once, and with
a known candidate it always re-runs setup), then open the device, detach
an active kernel driver on interface 0, claim interface 0, return True. -/
def open_handle (s : ScopeState) (env : Env) : Res Bool :=
  if s.handle then ⟨s, [], PyOut.ok true⟩
  else if !s.device then ⟨s, [], PyOut.ok false⟩
  else
    let r := setup s env
    match r.out with
    | PyOut.ok true =>
        ⟨{ r.state with handle := true },
          r.events ++ [Event.openDev] ++
            (if env.kernelDriverActive then [Event.detachKernel 0] else []) ++
            [Event.claimInterface 0],
          PyOut.ok true⟩
    | _ => ⟨r.state, r.events, PyOut.ok false⟩

/-- Oscilloscope.close_handle: no-op returning True when no handle is
open; otherwise release interface 0 when `release_interface` is set, close
the handle, clear `self.device_handle`, and return True. -/
def close_handle (s : ScopeState) (release_interface : Bool) : Res Bool :=
  if !s.handle then ⟨s, [], PyOut.ok true⟩
  else
    ⟨{ s with handle := false },
      (if release_interface then [Event.releaseInterface 0] else []) ++ [Event.closeDev],
      PyOut.ok true⟩

/-- The `if not self.device_handle: assert self.open_handle()` prologue
shared by the command and acquisition methods: a no-op on an open session,
otherwise open_handle is run and a False return raises AssertionError. -/
def ensure_open (s : ScopeState) (env : Env) : Res Unit :=
  if s.handle then ⟨s, [], PyOut.ok ()⟩
  else
    let r := open_handle s env
    ⟨r.state, r.events,
      match r.out with
      | PyOut.ok true => PyOut.ok ()
      | _ => PyOut.exn PyErr.assertionError⟩

/-- One firmware transfer packet: its control-transfer value field, its
payload, and its declared byte count (`packet.value`, `packet.data`,
`packet.size`). -/
structure Packet where
  value : ℕ
  data : List ℕ
  size : ℕ
deriving DecidableEq

/-- The packet loop of Oscilloscope.flash_firmware: for each packet issue
`controlWrite(0x40, 0xa0, packet.value, 0x00, packet.data, timeout)` and
`assert bytes_written == packet.size`; on a mismatch the loop stops with
AssertionError and no later packet is sent. -/
def writePackets (env : Env) (timeout : ℕ) : List Packet → List Event × PyOut Unit
  | [] => ([], PyOut.ok ())
  | p :: rest =>
    let ev := Event.controlWrite 0x40 0xa0 p.value 0x00 p.data timeout
    if env.controlWriteLen 0xa0 p.value p.data = p.size then
      let r := writePackets env timeout rest
      (ev :: r.1, r.2)
    else ([ev], PyOut.exn PyErr.assertionError)

/-- Oscilloscope.flash_firmware: ensure the session is open, send every
packet (aborting on a size mismatch), then sleep 0.1 s for the device to
re-enumerate, close without releasing the interface, re-run setup and
open_handle, and return True. -/
def flash_firmware (s : ScopeState) (env : Env) (firmware : List Packet) (timeout : ℕ) :
    Res Bool :=
  let pre := ensure_open s env
  match pre.out with
  | PyOut.exn e => ⟨pre.state, pre.events, PyOut.exn e⟩
  | PyOut.ok _ =>
    match writePackets env timeout firmware with
    | (evs, PyOut.exn e) => ⟨pre.state, pre.events ++ evs, PyOut.exn e⟩
    | (evs, PyOut.ok _) =>
      let c := close_handle pre.state false
      let st := setup c.state env
      let o := open_handle st.state env
      ⟨o.state,
        pre.events ++ evs ++ [Event.sleepMs 100] ++ c.events ++ st.events ++ o.events,
        PyOut.ok true⟩

/-- Python extended slice `l[::2]`: every second element starting at
index 0 (`l[1::2]` is then `everyOther l.tail`). -/
def everyOther {α : Type} : List α → List α
  | [] => []
  | [a] => [a]
  | a :: _ :: rest => a :: everyOther rest

/-- Byte-wise interleaving of two channel lists, the inverse of the
`l[::2]` / `l[1::2]` demultiplexing. -/
def interleave {α : Type} : List α → List α → List α
  | [], ys => ys
  | x :: xs, [] => x :: xs
  | x :: xs, y :: ys => x :: y :: interleave xs ys

/-- Return shape of the read methods: with `raw` set, the two channel
byte strings `(data[::2], data[1::2])`; otherwise the two integer lists
`(map(ord, data[::2]), map(ord, data[1::2]))`. -/
inductive Channels where
  | raw (ch1 ch2 : List (Fin 256))
  | ints (ch1 ch2 : List ℕ)
deriving DecidableEq

/-- Oscilloscope.read_data: double data_size (`data_size <<= 0x1`),
ensure the session is open, issue the 1-byte acquisition-arm control read
`controlRead(0x40, 0xe3, 0x00, 0x00, 0x01, timeout)`, bulk-read
`data_size` bytes from endpoint 0x86, and demultiplex the buffer into the
two channels. -/
def read_data (s : ScopeState) (env : Env) (data_size : ℕ) (raw : Bool) (timeout : ℕ) :
    Res Channels :=
  let ds := data_size <<< 1
  let pre := ensure_open s env
  match pre.out with
  | PyOut.exn e => ⟨pre.state, pre.events, PyOut.exn e⟩
  | PyOut.ok _ =>
    let evs := pre.events ++
      [Event.controlRead 0x40 0xe3 0x00 0x00 0x01 timeout, Event.bulkRead 0x86 ds timeout]
    let data := env.bulkData ds
    if raw then
      ⟨pre.state, evs, PyOut.ok (Channels.raw (everyOther data) (everyOther data.tail))⟩
    else
      ⟨pre.state, evs,
        PyOut.ok (Channels.ints ((everyOther data).map Fin.val)
          ((everyOther data.tail).map Fin.val))⟩

/-- The closure built by Oscilloscope.build_data_reader when `raw` is set:
double data_size, arm, bulk-read, return the two raw channel slices.  The
bound `self.device_handle.controlRead` / `bulkRead` methods are the
captured environment. -/
def fast_read_data_raw (env : Env) (data_size : ℕ) (timeout : ℕ) : List Event × Channels :=
  let ds := data_size <<< 1
  let data := env.bulkData ds
  ([Event.controlRead 0x40 0xe3 0x00 0x00 0x01 timeout, Event.bulkRead 0x86 ds timeout],
    Channels.raw (everyOther data) (everyOther data.tail))

/-- The closure built by Oscilloscope.build_data_reader when `raw` is not
set: as `fast_read_data_raw` but returning the two `map(ord, _)` integer
lists. -/
def fast_read_data_ints (env : Env) (data_size : ℕ) (timeout : ℕ) : List Event × Channels :=
  let ds := data_size <<< 1
  let data := env.bulkData ds
  ([Event.controlRead 0x40 0xe3 0x00 0x00 0x01 timeout, Event.bulkRead 0x86 ds timeout],
    Channels.ints ((everyOther data).map Fin.val) ((everyOther data.tail).map Fin.val))

/-- Oscilloscope.build_data_reader: ensure the session is open and return
the fast_read_data closure matching the `raw` flag. -/
def build_data_reader (s : ScopeState) (env : Env) (raw : Bool) :
    Res (ℕ → ℕ → List Event × Channels) :=
  let pre := ensure_open s env
  match pre.out with
  | PyOut.exn e => ⟨pre.state, pre.events, PyOut.exn e⟩
  | PyOut.ok _ =>
    if raw then ⟨pre.state, pre.events, PyOut.ok (fast_read_data_raw env)⟩
    else ⟨pre.state, pre.events, PyOut.ok (fast_read_data_ints env)⟩

/-- Oscilloscope.scale_read_data:
`scale_factor = (5.0 * probe_multiplier)/(voltage_range << 7)` and
`[(datum - 128)*scale_factor for datum in read_data]`.  The second
argument is shifted with `<<`, so it is a Python int; floats are modelled
by ℚ. -/
def scale_read_data (read_data : List ℤ) (voltage_range : ℕ) (probe_multiplier : ℚ) :
    List ℚ :=
  let scale_factor := (5 * probe_multiplier) / ((voltage_range <<< 7 : ℕ) : ℚ)
  read_data.map (fun datum : ℤ => ((datum : ℚ) - 128) * scale_factor)

/-- Python 2 `chr`: the one-character string for an int in [0, 256), a
ValueError otherwise. -/
def chr (n : ℤ) : PyOut (List ℕ) :=
  if 0 ≤ n ∧ n < 256 then PyOut.ok [n.toNat] else PyOut.exn PyErr.valueError

/-- Common body of set_sample_rate / set_ch1_voltage_range /
set_ch2_voltage_range: ensure the session is open, issue
`controlWrite(0x40, request, value, idx, chr(n), timeout)` and
`assert bytes_written == 0x01`; `chr` raises before the transfer when the
argument is outside [0, 256). -/
def sendIndexByte (request value idx : ℕ) (s : ScopeState) (env : Env) (n : ℤ)
    (timeout : ℕ) : Res Bool :=
  let pre := ensure_open s env
  match pre.out with
  | PyOut.exn e => ⟨pre.state, pre.events, PyOut.exn e⟩
  | PyOut.ok _ =>
    match chr n with
    | PyOut.exn e => ⟨pre.state, pre.events, PyOut.exn e⟩
    | PyOut.ok payload =>
      let ev := Event.controlWrite 0x40 request value idx payload timeout
      if env.controlWriteLen request value payload = 1 then
        ⟨pre.state, pre.events ++ [ev], PyOut.ok true⟩
      else
        ⟨pre.state, pre.events ++ [ev], PyOut.exn PyErr.assertionError⟩

/-- Oscilloscope.set_sample_rate: one-byte control write on request 0xe2,
value 0x00, index 0x00. -/
def set_sample_rate (s : ScopeState) (env : Env) (rate_index : ℤ) (timeout : ℕ) :
    Res Bool :=
  sendIndexByte 0xe2 0x00 0x00 s env rate_index timeout

/-- Oscilloscope.set_ch1_voltage_range: one-byte control write on request
0xe0, value 0x00, index 0x00. -/
def set_ch1_voltage_range (s : ScopeState) (env : Env) (range_index : ℤ) (timeout : ℕ) :
    Res Bool :=
  sendIndexByte 0xe0 0x00 0x00 s env range_index timeout

/-- Oscilloscope.set_ch2_voltage_range: one-byte control write on request
0xe1, value 0x00, index 0x00. -/
def set_ch2_voltage_range (s : ScopeState) (env : Env) (range_index : ℤ) (timeout : ℕ) :
    Res Bool :=
  sendIndexByte 0xe1 0x00 0x00 s env range_index timeout

/-- The SAMPLE_RATES dict of the Oscilloscope class: keys 0-27, values
(label, rate in samples per second); 48e6 for keys 0-10, 1e6 for keys
14-24, and the listed individual rates for the rest. -/
def SAMPLE_RATES (i : ℤ) : Option (String × ℚ) :=
  if 0 ≤ i ∧ i ≤ 10 then some ("48 MS/s", 48000000)
  else if i = 11 then some ("16 MSa/s", 16000000)
  else if i = 12 then some ("8 MSa/s", 8000000)
  else if i = 13 then some ("4 MSa/s", 4000000)
  else if 14 ≤ i ∧ i ≤ 24 then some ("1 MS/s", 1000000)
  else if i = 25 then some ("500 KSa/s", 500000)
  else if i = 26 then some ("200 KSa/s", 200000)
  else if i = 27 then some ("100 KSa/s", 100000)
  else none

/-- Oscilloscope.convert_sampling_rate_to_measurement_times:
`rate_label, rate = self.SAMPLE_RATES.get(rate_index, ("? MS/s", 1.0))`
then `[i/rate for i in xrange(num_points)], rate_label`. -/
def convert_sampling_rate_to_measurement_times (num_points : ℕ) (rate_index : ℤ) :
    List ℚ × String :=
  let p := (SAMPLE_RATES rate_index).getD ("? MS/s", 1)
  ((List.range num_points).map (fun i : ℕ => (i : ℚ) / p.2), p.1)

/-- A state with context, candidate device and handle all present. -/
def sOpen : ScopeState := ⟨true, true, true⟩

/-- A freshly constructed session: nothing present. -/
def sFresh : ScopeState := ⟨false, false, false⟩

/-- An environment whose enumeration finds a device, with no active
kernel driver, zero-length control-write reports, and empty bulk reads. -/
def envFound : Env := ⟨true, false, fun _ _ _ => 0, fun _ => []⟩

/-- An environment whose bulk reads return exactly the requested number
of zero bytes and whose control writes report 0 bytes transferred. -/
def envRep : Env := ⟨true, false, fun _ _ _ => 0, fun n => List.replicate n 0⟩

/-- An environment for the firmware-abort witness: control writes on the
firmware request report 2 bytes for value 1 and 0 bytes otherwise. -/
def envMixed : Env := ⟨true, false, fun _ v _ => if v = 1 then 2 else 0, fun _ => []⟩

/-- Helper: `everyOther` of a nonempty list is its head followed by
`everyOther` of the tail's tail. -/
theorem everyOther_cons_tail {α : Type} (b : α) (rest : List α) :
    everyOther (b :: rest) = b :: everyOther rest.tail := by
  cases rest <;> rfl

/-- Helper: element `i` of `l[::2]` is element `2*i` of `l`. -/
theorem everyOther_get {α : Type} : (l : List α) → (i : ℕ) →
    (everyOther l).get? i = l.get? (2 * i)
  | [], i => by simp [everyOther]
  | [a], 0 => rfl
  | [a], i + 1 => by simp [everyOther]; omega
  | a :: b :: rest, 0 => rfl
  | a :: b :: rest, i + 1 => by
      rw [show 2 * (i + 1) = 2 * i + 1 + 1 by ring]
      simpa [everyOther] using everyOther_get rest i

/-- Helper: element `i` of `l[1::2]` is element `2*i + 1` of `l`. -/
theorem everyOther_tail_get {α : Type} (l : List α) (i : ℕ) :
    (everyOther l.tail).get? i = l.get? (2 * i + 1) := by
  cases l with
  | nil => simp [everyOther]
  | cons a r => simpa using everyOther_get r i

/-- Helper: `l[::2]` has `(length l + 1) / 2` elements. -/
theorem everyOther_length {α : Type} : (l : List α) →
    (everyOther l).length = (l.length + 1) / 2
  | [] => by simp [everyOther]
  | [a] => by simp [everyOther]
  | a :: b :: rest => by
      show (everyOther rest).length + 1 = (rest.length + 1 + 1 + 1) / 2
      rw [everyOther_length rest]
      omega

/-- Helper: interleaving the even-indexed and odd-indexed sublists
reconstructs the list. -/
theorem interleave_everyOther {α : Type} : (l : List α) →
    interleave (everyOther l) (everyOther l.tail) = l
  | [] => rfl
  | [a] => rfl
  | a :: b :: rest => by
      show interleave (a :: everyOther rest) (everyOther (b :: rest)) = a :: b :: rest
      rw [everyOther_cons_tail]
      show a :: b :: interleave (everyOther rest) (everyOther rest.tail) = a :: b :: rest
      rw [interleave_everyOther rest]

/-- Helper: read_data on an open session issues exactly the arm control
read and the doubled-size bulk read, leaves the state unchanged, and
returns the demultiplexed channels. -/
theorem read_data_open (c d : Bool) (env : Env) (ds tmo : ℕ) (raw : Bool) :
    read_data ⟨c, d, true⟩ env ds raw tmo =
      ⟨⟨c, d, true⟩,
        [Event.controlRead 0x40 0xe3 0x00 0x00 0x01 tmo, Event.bulkRead 0x86 (ds <<< 1) tmo],
        PyOut.ok (if raw then
            Channels.raw (everyOther (env.bulkData (ds <<< 1)))
              (everyOther (env.bulkData (ds <<< 1)).tail)
          else
            Channels.ints ((everyOther (env.bulkData (ds <<< 1))).map Fin.val)
              ((everyOther (env.bulkData (ds <<< 1)).tail).map Fin.val))⟩ := by
  cases raw <;> rfl

/-- Helper: the firmware packet loop, fed a run of packets that transfer
their declared size followed by one that does not, sends exactly the good
run plus the offending packet and stops with AssertionError. -/
theorem writePackets_abort (env : Env) (timeout : ℕ) (bad : Packet) :
    (good : List Packet) → (rest : List Packet) →
    (∀ p ∈ good, env.controlWriteLen 0xa0 p.value p.data = p.size) →
    env.controlWriteLen 0xa0 bad.value bad.data ≠ bad.size →
    writePackets env timeout (good ++ bad :: rest) =
      ((good ++ [bad]).map (fun p => Event.controlWrite 0x40 0xa0 p.value 0x00 p.data timeout),
        PyOut.exn PyErr.assertionError)
  | [], rest, _, hbad => by
      show writePackets env timeout (bad :: rest) = _
      simp [writePackets, hbad]
  | p :: good, rest, hgood, hbad => by
      have ih := writePackets_abort env timeout bad good rest
        (fun q hq => hgood q (List.mem_cons_of_mem p hq)) hbad
      have hp := hgood p (List.mem_cons_self p good)
      simp [writePackets, hp, ih]

/-- C1 (confirmed): for raw bytes b in [0,255], every positive range
argument r and probe multiplier m, scale_read_data maps each byte b to
`(b - 128) * (5 * m) / (r * 128)` volts; byte 128 maps to 0 for every
range argument, and for positive r (and positive multiplier) the result
is strictly monotone in the raw byte. -/
theorem scale_read_data_claim :
    (∀ (l : List ℤ) (r : ℕ) (m : ℚ), 0 < r →
        scale_read_data l r m =
          l.map (fun b : ℤ => ((b : ℚ) - 128) * (5 * m) / ((r : ℚ) * 128))) ∧
    (∀ (r : ℕ) (m : ℚ), scale_read_data [128] r m = [0]) ∧
    (∀ (b c : ℤ) (r : ℕ) (m : ℚ), 0 < r → 0 < m → 0 ≤ b → b < c → c ≤ 255 →
        (scale_read_data [b] r m).headI < (scale_read_data [c] r m).headI) := by
  have hshift : ∀ r : ℕ, ((r <<< 7 : ℕ) : ℚ) = (r : ℚ) * 128 := by
    intro r
    rw [Nat.shiftLeft_eq]
    push_cast
    norm_num
  refine ⟨?_, ?_, ?_⟩
  · intro l r m _
    simp only [scale_read_data]
    rw [hshift]
    exact congrArg (fun f => List.map f l) (funext fun b => by ring)
  · intro r m
    simp [scale_read_data]
  · intro b c r m hr hm hb hbc hc
    have h5m : (0 : ℚ) < 5 * m := mul_pos (by norm_num) hm
    have hr128 : (0 : ℚ) < (r : ℚ) * 128 := by
      have : (0 : ℚ) < (r : ℚ) := by exact_mod_cast hr
      linarith
    have hsf : 0 < (5 * m) / ((r <<< 7 : ℕ) : ℚ) := by
      rw [hshift]
      exact div_pos h5m hr128
    show ((b : ℚ) - 128) * _ < ((c : ℚ) - 128) * _
    have hlt : ((b : ℚ) - 128) < ((c : ℚ) - 128) := by
      have : (b : ℚ) < (c : ℚ) := by exact_mod_cast hbc
      linarith
    exact mul_lt_mul_of_pos_right hlt hsf

/-- C1 witness: concrete evaluation of the scaling claim at bytes 0, 128
and 255 with range argument 2 and probe multiplier 1. -/
theorem scale_read_data_claim_witness :
    scale_read_data [0, 128, 255] 2 1 =
      List.map (fun b => ((b : ℚ) - 128) * (5 * 1) / ((2 : ℕ) * 128)) [0, 128, 255] ∧
    scale_read_data [128] 3 1 = [0] ∧
    (scale_read_data [0] 2 1).headI < (scale_read_data [255] 2 1).headI := by
  refine ⟨?_, scale_read_data_claim.2.1 3 1, ?_⟩
  · have h := scale_read_data_claim.1 [0, 128, 255] 2 1 (by norm_num)
    simpa using h
  · exact scale_read_data_claim.2.2 0 255 2 1 (by norm_num) (by norm_num) (by norm_num)
      (by norm_num) (by norm_num)

/-- C4 (confirmed): on an open session, the demultiplexing performed by
read_data is a bijection on any even-length bulk buffer: channel 1 holds
exactly the even-indexed bytes, channel 2 exactly the odd-indexed bytes,
in order, and interleaving the two channels reconstructs the buffer. -/
theorem read_data_demux_claim :
    ∀ (s : ScopeState) (env : Env) (ds tmo : ℕ) (c1 c2 : List (Fin 256)),
    s.handle = true →
    (env.bulkData (ds <<< 1)).length % 2 = 0 →
    (read_data s env ds true tmo).out = PyOut.ok (Channels.raw c1 c2) →
    (∀ i, c1.get? i = (env.bulkData (ds <<< 1)).get? (2 * i)) ∧
    (∀ i, c2.get? i = (env.bulkData (ds <<< 1)).get? (2 * i + 1)) ∧
    interleave c1 c2 = env.bulkData (ds <<< 1) := by
  intro s env ds tmo c1 c2 h _ hout
  obtain ⟨c, d, hdl⟩ := s
  have hh : hdl = true := h
  subst hh
  rw [read_data_open] at hout
  simp only [if_true, Channels.raw.injEq, PyOut.ok.injEq] at hout
  obtain ⟨h1, h2⟩ := hout
  subst h1
  subst h2
  exact ⟨fun i => everyOther_get _ i, fun i => everyOther_tail_get _ i,
    interleave_everyOther _⟩

/-- C4 witness: concrete demultiplexing of the 2-byte zero buffer
returned by envRep for one point per channel. -/
theorem read_data_demux_claim_witness :
    interleave [(0 : Fin 256)] [(0 : Fin 256)] = envRep.bulkData (1 <<< 1) ∧
    [(0 : Fin 256)].get? 0 = (envRep.bulkData (1 <<< 1)).get? 0 := by
  have h := read_data_demux_claim sOpen envRep 1 0 [0] [0] rfl (by decide) (by decide)
  exact ⟨h.2.2, h.1 0⟩

/-- C6 (confirmed): on an open session, read_data with raw set and with
raw unset agree for any bulk buffer: mapping each raw channel byte to its
integer ordinal yields exactly the non-raw channel output. -/
theorem read_data_raw_nonraw_claim :
    ∀ (s : ScopeState) (env : Env) (ds tmo : ℕ) (c1 c2 : List (Fin 256)),
    s.handle = true →
    (read_data s env ds true tmo).out = PyOut.ok (Channels.raw c1 c2) →
    (read_data s env ds false tmo).out =
      PyOut.ok (Channels.ints (c1.map Fin.val) (c2.map Fin.val)) := by
  intro s env ds tmo c1 c2 h hout
  obtain ⟨c, d, hdl⟩ := s
  have hh : hdl = true := h
  subst hh
  rw [read_data_open] at hout
  simp only [if_true, Channels.raw.injEq, PyOut.ok.injEq] at hout
  obtain ⟨h1, h2⟩ := hout
  subst h1
  subst h2
  rw [read_data_open]
  simp

/-- C6 witness: concrete agreement of raw and non-raw reads on the 4-byte
zero buffer returned by envRep for two points per channel. -/
theorem read_data_raw_nonraw_claim_witness :
    (read_data sOpen envRep 2 false 0).out =
      PyOut.ok (Channels.ints ([(0 : Fin 256), 0].map Fin.val)
        ([(0 : Fin 256), 0].map Fin.val)) :=
  read_data_raw_nonraw_claim sOpen envRep 2 0 [0, 0] [0, 0] rfl rfl

/-- C9 (confirmed): on an open session, read_data for num_points requests
exactly num_points * 2 bytes from bulk endpoint 0x86 immediately after the
1-byte acquisition-arm control read (request 0xe3), and when the bulk
buffer has that many bytes each returned channel has num_points
elements. -/
theorem read_data_size_claim :
    ∀ (s : ScopeState) (env : Env) (np tmo : ℕ),
    s.handle = true →
    (read_data s env np false tmo).events =
      [Event.controlRead 0x40 0xe3 0x00 0x00 0x01 tmo,
        Event.bulkRead 0x86 (np * 2) tmo] ∧
    ((env.bulkData (np * 2)).length = np * 2 →
      ∀ c1 c2, (read_data s env np false tmo).out = PyOut.ok (Channels.ints c1 c2) →
        c1.length = np ∧ c2.length = np) := by
  intro s env np tmo h
  obtain ⟨c, d, hdl⟩ := s
  have hh : hdl = true := h
  subst hh
  have hds : np <<< 1 = np * 2 := by rw [Nat.shiftLeft_eq]
  constructor
  · rw [read_data_open, hds]
  · intro hlen c1 c2 hout
    rw [read_data_open] at hout
    simp only [if_false, Bool.false_eq_true, ite_false, Channels.ints.injEq,
      PyOut.ok.injEq] at hout
    obtain ⟨h1, h2⟩ := hout
    subst h1
    subst h2
    rw [hds]
    constructor
    · rw [List.length_map, everyOther_length, hlen]
      omega
    · rw [List.length_map, everyOther_length, List.length_tail, hlen]
      omega

/-- C9 witness: reading 4 points per channel from envRep issues the arm
read then an 8-byte bulk read, and both channels have 4 elements. -/
theorem read_data_size_claim_witness :
    (read_data sOpen envRep 4 false 0).events =
      [Event.controlRead 0x40 0xe3 0x00 0x00 0x01 0, Event.bulkRead 0x86 (4 * 2) 0] ∧
    ([(0 : ℕ), 0, 0, 0].length = 4 ∧ [(0 : ℕ), 0, 0, 0].length = 4) := by
  have h := read_data_size_claim sOpen envRep 4 0 rfl
  exact ⟨h.1, h.2 (by decide) [0, 0, 0, 0] [0, 0, 0, 0] (by decide)⟩

/-- C2 (amended): open_handle returns True with no transport calls when a
handle is already open; when no handle is open and no candidate device is
known it returns False at once without running discovery; when a
candidate is known it always re-runs discovery (setup), returning False
when that finds no device, and otherwise opens the handle, detaches an
active kernel driver on interface 0 if present, claims interface 0, and
returns True. -/
theorem open_handle_claim :
    ∀ (s : ScopeState) (env : Env),
    (s.handle = true → open_handle s env = ⟨s, [], PyOut.ok true⟩) ∧
    (s.handle = false → s.device = false →
      open_handle s env = ⟨s, [], PyOut.ok false⟩) ∧
    (s.handle = false → s.device = true → env.findsDevice = false →
      open_handle s env =
        ⟨{ s with context := true, device := false }, [Event.enumerate],
          PyOut.ok false⟩) ∧
    (s.handle = false → s.device = true → env.findsDevice = true →
      open_handle s env =
        ⟨{ s with context := true, device := true, handle := true },
          [Event.enumerate, Event.openDev] ++
            (if env.kernelDriverActive then [Event.detachKernel 0] else []) ++
            [Event.claimInterface 0],
          PyOut.ok true⟩) := by
  intro s env
  obtain ⟨c, d, hdl⟩ := s
  refine ⟨?_, ?_, ?_, ?_⟩
  · intro h
    have : hdl = true := h
    subst this
    rfl
  · intro h hd
    have : hdl = false := h
    subst this
    have : d = false := hd
    subst this
    rfl
  · intro h hd hf
    have : hdl = false := h
    subst this
    have : d = true := hd
    subst this
    simp [open_handle, setup, hf]
  · intro h hd hf
    have : hdl = false := h
    subst this
    have : d = true := hd
    subst this
    simp [open_handle, setup, hf]

/-- C2 counterexample: in a fresh session (no candidate device known)
whose environment would find a device, the claim as stated predicts that
open_handle runs discovery (setup) and succeeds; the code instead returns
False immediately, issuing no transport call at all (in particular no
enumeration). -/
theorem open_handle_claim_counterexample :
    envFound.findsDevice = true ∧
    open_handle sFresh envFound = ⟨sFresh, [], PyOut.ok false⟩ :=
  ⟨rfl, rfl⟩

/-- C2 witness: a session with a known candidate and no open handle, in
an environment that finds the device and has no active kernel driver,
ends up open with interface 0 claimed and returns True. -/
theorem open_handle_claim_witness :
    open_handle ⟨false, true, false⟩ envFound =
      ⟨⟨true, true, true⟩, [Event.enumerate, Event.openDev, Event.claimInterface 0],
        PyOut.ok true⟩ :=
  (open_handle_claim ⟨false, true, false⟩ envFound).2.2.2 rfl rfl rfl

/-- C3 (amended): during flash_firmware on an open session, if a packet's
control write transfers a byte count different from its declared size,
the upload aborts with AssertionError before any later packet is sent;
the scope state is unchanged, so the handle used for the upload remains
open (the close / re-discover / re-open sequence runs only after all
packets succeed), and the caller must close it before retrying with a
fresh setup() / open_handle(). -/
theorem flash_firmware_abort_claim :
    ∀ (s : ScopeState) (env : Env) (timeout : ℕ) (good : List Packet) (bad : Packet)
      (rest : List Packet),
    s.handle = true →
    (∀ p ∈ good, env.controlWriteLen 0xa0 p.value p.data = p.size) →
    env.controlWriteLen 0xa0 bad.value bad.data ≠ bad.size →
    flash_firmware s env (good ++ bad :: rest) timeout =
      ⟨s, (good ++ [bad]).map
          (fun p => Event.controlWrite 0x40 0xa0 p.value 0x00 p.data timeout),
        PyOut.exn PyErr.assertionError⟩ := by
  intro s env timeout good bad rest h hgood hbad
  have hw := writePackets_abort env timeout bad good rest hgood hbad
  obtain ⟨c, d, hdl⟩ := s
  have : hdl = true := h
  subst this
  simp [flash_firmware, ensure_open, hw]

/-- C3 counterexample: with an open session and a two-packet firmware
whose first packet transfers 0 of its declared 2 bytes, the upload aborts
before the second packet is sent, but the handle is still open afterwards:
the session is left open, not unopened as the claim states. -/
theorem flash_firmware_claim_counterexample :
    (flash_firmware sOpen envFound [⟨1, [17, 34], 2⟩, ⟨2, [51], 1⟩] 60).out
        = PyOut.exn PyErr.assertionError ∧
    (flash_firmware sOpen envFound [⟨1, [17, 34], 2⟩, ⟨2, [51], 1⟩] 60).events
        = [Event.controlWrite 0x40 0xa0 1 0x00 [17, 34] 60] ∧
    (flash_firmware sOpen envFound [⟨1, [17, 34], 2⟩, ⟨2, [51], 1⟩] 60).state.handle
        = true :=
  ⟨rfl, rfl, rfl⟩

/-- C3 witness: a concrete aborting upload - one packet that transfers
its declared size, one that does not, one that is never sent. -/
theorem flash_firmware_abort_claim_witness :
    flash_firmware sOpen envMixed [⟨1, [9, 9], 2⟩, ⟨2, [7], 1⟩, ⟨3, [], 0⟩] 60 =
      ⟨sOpen,
        [Event.controlWrite 0x40 0xa0 1 0x00 [9, 9] 60,
          Event.controlWrite 0x40 0xa0 2 0x00 [7] 60],
        PyOut.exn PyErr.assertionError⟩ := by
  have h := flash_firmware_abort_claim sOpen envMixed 60 [⟨1, [9, 9], 2⟩] ⟨2, [7], 1⟩
      [⟨3, [], 0⟩] rfl (by decide) (by decide)
  exact h

/-- C5 (confirmed): on an open session the reader returned by
build_data_reader is behaviorally identical to read_data with the same
raw flag: for every data_size and timeout over the same environment it
issues the same transfer events and returns the same output, read_data
additionally leaving the state unchanged. -/
theorem build_data_reader_claim :
    ∀ (s : ScopeState) (env : Env) (raw : Bool) (f : ℕ → ℕ → List Event × Channels)
      (ds tmo : ℕ),
    s.handle = true →
    (build_data_reader s env raw).out = PyOut.ok f →
    (read_data s env ds raw tmo).events = (f ds tmo).1 ∧
    (read_data s env ds raw tmo).out = PyOut.ok (f ds tmo).2 ∧
    (read_data s env ds raw tmo).state = s := by
  intro s env raw f ds tmo h hf
  obtain ⟨c, d, hdl⟩ := s
  have : hdl = true := h
  subst this
  cases raw
  · have hfe : fast_read_data_ints env = f := by
      simpa [build_data_reader, ensure_open] using hf
    subst hfe
    exact ⟨rfl, rfl, rfl⟩
  · have hfe : fast_read_data_raw env = f := by
      simpa [build_data_reader, ensure_open] using hf
    subst hfe
    exact ⟨rfl, rfl, rfl⟩

/-- C5 witness: on the open session and envRep, the built raw reader and
read_data produce the same output at data_size 2, timeout 0. -/
theorem build_data_reader_claim_witness :
    (read_data sOpen envRep 2 true 0).out = PyOut.ok ((fast_read_data_raw envRep) 2 0).2 := by
  have h := build_data_reader_claim sOpen envRep true (fast_read_data_raw envRep) 2 0 rfl rfl
  exact h.2.1

/-- C8 (confirmed): close_handle is idempotent and safe before any open:
with no open handle it returns True with no transport calls; with an open
handle it releases interface 0 first exactly when release_interface is
set, closes the device, clears the open-handle state, and returns True;
and an immediately following second call is again a no-op success. -/
theorem close_handle_claim :
    ∀ (s : ScopeState) (r r2 : Bool),
    (s.handle = false → close_handle s r = ⟨s, [], PyOut.ok true⟩) ∧
    (s.handle = true → close_handle s r =
      ⟨{ s with handle := false },
        (if r then [Event.releaseInterface 0] else []) ++ [Event.closeDev],
        PyOut.ok true⟩) ∧
    close_handle (close_handle s r).state r2 =
      ⟨(close_handle s r).state, [], PyOut.ok true⟩ := by
  intro s r r2
  obtain ⟨c, d, hdl⟩ := s
  refine ⟨?_, ?_, ?_⟩
  · intro h
    have : hdl = false := h
    subst this
    rfl
  · intro h
    have : hdl = true := h
    subst this
    rfl
  · cases hdl <;> rfl

/-- C8 witness: closing the open session releases interface 0 then closes
the device, and a second close is a no-op success. -/
theorem close_handle_claim_witness :
    close_handle sOpen true =
      ⟨⟨true, true, false⟩, [Event.releaseInterface 0, Event.closeDev], PyOut.ok true⟩ ∧
    close_handle (close_handle sOpen true).state false =
      ⟨(close_handle sOpen true).state, [], PyOut.ok true⟩ := by
  have h := close_handle_claim sOpen true false
  exact ⟨h.2.1 rfl, h.2.2⟩

/-- Helper: reading element i of `[f i for i in range np]` with getD. -/
theorem range_map_getD (f : ℕ → ℚ) (np i : ℕ) (h : i < np) :
    ((List.range np).map f).getD i 0 = f i := by
  have hlen : i < ((List.range np).map f).length := by simpa using h
  rw [List.getD_eq_getElem _ _ hlen]
  simp

/-- Helper: every rate in the sample-rate table, and the fallback rate
1.0, is positive. -/
theorem sample_rate_pos (ri : ℤ) :
    0 < ((SAMPLE_RATES ri).getD ("? MS/s", 1)).2 := by
  unfold SAMPLE_RATES
  split_ifs <;> norm_num

/-- C7 (confirmed): for every num_points and any rate index,
convert_sampling_rate_to_measurement_times returns exactly num_points
time values, the i-th being i divided by the looked-up rate, starting at
0 with spacing 1/rate and strictly increasing (the looked-up rate,
fallback included, is always positive), paired with the table's label;
for an index outside the table it returns the fallback label "? MS/s" and
rate 1.0 without raising. -/
theorem convert_times_claim :
    ∀ (np : ℕ) (ri : ℤ),
    ((convert_sampling_rate_to_measurement_times np ri).1).length = np ∧
    (∀ i, i < np → ((convert_sampling_rate_to_measurement_times np ri).1).getD i 0 =
      (i : ℚ) / ((SAMPLE_RATES ri).getD ("? MS/s", 1)).2) ∧
    (0 < np → ((convert_sampling_rate_to_measurement_times np ri).1).getD 0 0 = 0) ∧
    (∀ i, i + 1 < np →
      ((convert_sampling_rate_to_measurement_times np ri).1).getD (i + 1) 0 -
        ((convert_sampling_rate_to_measurement_times np ri).1).getD i 0 =
      1 / ((SAMPLE_RATES ri).getD ("? MS/s", 1)).2) ∧
    0 < ((SAMPLE_RATES ri).getD ("? MS/s", 1)).2 ∧
    (∀ i, i + 1 < np →
      ((convert_sampling_rate_to_measurement_times np ri).1).getD i 0 <
        ((convert_sampling_rate_to_measurement_times np ri).1).getD (i + 1) 0) ∧
    (∀ lab r, SAMPLE_RATES ri = some (lab, r) →
      (convert_sampling_rate_to_measurement_times np ri).2 = lab) ∧
    (SAMPLE_RATES ri = none →
      (convert_sampling_rate_to_measurement_times np ri).2 = "? MS/s" ∧
      ((SAMPLE_RATES ri).getD ("? MS/s", 1)).2 = 1) := by
  intro np ri
  have hrpos : 0 < ((SAMPLE_RATES ri).getD ("? MS/s", 1)).2 := sample_rate_pos ri
  have hget : ∀ i, i < np →
      ((convert_sampling_rate_to_measurement_times np ri).1).getD i 0 =
        (i : ℚ) / ((SAMPLE_RATES ri).getD ("? MS/s", 1)).2 := by
    intro i hi
    simp only [convert_sampling_rate_to_measurement_times]
    exact range_map_getD _ np i hi
  refine ⟨?_, hget, ?_, ?_, hrpos, ?_, ?_, ?_⟩
  · simp [convert_sampling_rate_to_measurement_times]
  · intro h
    rw [hget 0 h]
    simp
  · intro i hi
    rw [hget (i + 1) hi, hget i (by omega)]
    push_cast
    rw [div_sub_div_same]
    norm_num
  · intro i hi
    rw [hget (i + 1) hi, hget i (by omega)]
    rw [div_lt_div_iff_of_pos_right hrpos]
    exact_mod_cast Nat.lt_succ_self i
  · intro lab r hsome
    simp [convert_sampling_rate_to_measurement_times, hsome]
  · intro hnone
    constructor
    · simp [convert_sampling_rate_to_measurement_times, hnone]
    · rw [hnone]
      rfl

/-- C7 witness: three points at rate index 12 (8 MSa/s) and the fallback
behaviour at the out-of-table index 99. -/
theorem convert_times_claim_witness :
    ((convert_sampling_rate_to_measurement_times 3 12).1).length = 3 ∧
    ((convert_sampling_rate_to_measurement_times 3 12).1).getD 1 0 =
      (1 : ℚ) / ((SAMPLE_RATES 12).getD ("? MS/s", 1)).2 ∧
    (convert_sampling_rate_to_measurement_times 3 99).2 = "? MS/s" := by
  obtain ⟨hlen, hget, -, -, -, -, -, -⟩ := convert_times_claim 3 12
  obtain ⟨-, -, -, -, -, -, -, hfb⟩ := convert_times_claim 3 99
  refine ⟨hlen, ?_, (hfb (by decide)).1⟩
  have h := hget 1 (by omega)
  simpa using h

/-- Helper: sendIndexByte on an open session with an in-range argument
issues exactly one control write whose payload is the single byte equal
to the argument. -/
theorem sendIndexByte_events (request value idx : ℕ) (c d : Bool) (env : Env) (n : ℤ)
    (tmo : ℕ) (h0 : 0 ≤ n) (h256 : n < 256) :
    (sendIndexByte request value idx ⟨c, d, true⟩ env n tmo).events =
      [Event.controlWrite 0x40 request value idx [n.toNat] tmo] := by
  have hc : chr n = PyOut.ok [n.toNat] := if_pos ⟨h0, h256⟩
  simp [sendIndexByte, ensure_open, hc]
  split <;> rfl

/-- Helper: sendIndexByte on an open session with an out-of-range
argument raises ValueError from chr before any control transfer. -/
theorem sendIndexByte_oob (request value idx : ℕ) (c d : Bool) (env : Env) (n : ℤ)
    (tmo : ℕ) (hn : ¬(0 ≤ n ∧ n < 256)) :
    sendIndexByte request value idx ⟨c, d, true⟩ env n tmo =
      ⟨⟨c, d, true⟩, [], PyOut.exn PyErr.valueError⟩ := by
  have hc : chr n = PyOut.exn PyErr.valueError := if_neg hn
  simp [sendIndexByte, ensure_open, hc]

/-- C10 (confirmed): on an open session, for an integer argument in
[0,255] each of set_sample_rate, set_ch1_voltage_range and
set_ch2_voltage_range issues exactly one control write whose payload is
the single byte equal to the argument (requests 0xe2, 0xe0, 0xe1
respectively), with no range validation or clamping; for an integer
argument outside [0,255] each raises ValueError during payload
construction (chr) and issues no control transfer. -/
theorem set_byte_commands_claim :
    ∀ (s : ScopeState) (env : Env) (n : ℤ) (tmo : ℕ),
    s.handle = true →
    ((0 ≤ n ∧ n < 256) →
      (set_sample_rate s env n tmo).events =
        [Event.controlWrite 0x40 0xe2 0x00 0x00 [n.toNat] tmo] ∧
      (set_ch1_voltage_range s env n tmo).events =
        [Event.controlWrite 0x40 0xe0 0x00 0x00 [n.toNat] tmo] ∧
      (set_ch2_voltage_range s env n tmo).events =
        [Event.controlWrite 0x40 0xe1 0x00 0x00 [n.toNat] tmo] ∧
      ((n.toNat : ℤ) = n)) ∧
    (¬(0 ≤ n ∧ n < 256) →
      set_sample_rate s env n tmo = ⟨s, [], PyOut.exn PyErr.valueError⟩ ∧
      set_ch1_voltage_range s env n tmo = ⟨s, [], PyOut.exn PyErr.valueError⟩ ∧
      set_ch2_voltage_range s env n tmo = ⟨s, [], PyOut.exn PyErr.valueError⟩) := by
  intro s env n tmo h
  obtain ⟨c, d, hdl⟩ := s
  have : hdl = true := h
  subst this
  constructor
  · intro hin
    exact ⟨sendIndexByte_events 0xe2 0x00 0x00 c d env n tmo hin.1 hin.2,
      sendIndexByte_events 0xe0 0x00 0x00 c d env n tmo hin.1 hin.2,
      sendIndexByte_events 0xe1 0x00 0x00 c d env n tmo hin.1 hin.2,
      Int.toNat_of_nonneg hin.1⟩
  · intro hn
    exact ⟨sendIndexByte_oob 0xe2 0x00 0x00 c d env n tmo hn,
      sendIndexByte_oob 0xe0 0x00 0x00 c d env n tmo hn,
      sendIndexByte_oob 0xe1 0x00 0x00 c d env n tmo hn⟩

/-- C10 witness: argument 200 is sent as the single payload byte 200 on
the sample-rate request; argument 300 raises ValueError with no
transfer. -/
theorem set_byte_commands_claim_witness :
    (set_sample_rate sOpen envRep 200 0).events =
      [Event.controlWrite 0x40 0xe2 0x00 0x00 [(200 : ℤ).toNat] 0] ∧
    set_ch1_voltage_range sOpen envRep 300 0 = ⟨sOpen, [], PyOut.exn PyErr.valueError⟩ := by
  have hin := set_byte_commands_claim sOpen envRep 200 0 rfl
  have hout := set_byte_commands_claim sOpen envRep 300 0 rfl
  exact ⟨(hin.1 (by decide)).1, (hout.2 (by decide)).2.1⟩

end Scope
